import Mathlib

/-!
Shallow embedding of the HeyGen render-job client shared by the script
variants `HeyGen_GoogleSearch/main.py`, `HeyGen_Youtube/main.py`,
`HeyGen_PPT/main.py` and the single-scene
`HeyGen_ppt(純產生影片功能)` script, together with proofs about the
scene-assembly, submission, parallel-upload and polling behaviour.

Network interaction is made explicit: a submit call is a function of the
transport outcome (`Except` a transport error, an `HttpResponse`), the
poll loop is a function of the list of successive status-poll outcomes,
and the sequence of outbound requests a run performs is recorded as a
`List HttpCall`.
-/

namespace HeyGen

/-- Constant `TALKING_PHOTO_ID` shared by the GoogleSearch / Youtube / PPT
variants. -/
def TALKING_PHOTO_ID : String := "8c6187262e744939bb335949024e3ec5"

/-- Chinese voice id (`VOICE_ID_ZH`). -/
def VOICE_ID_ZH : String := "4158cf2ef85d4ccc856aacb1c47dbb0c"

/-- English voice id (`VOICE_ID_EN`). -/
def VOICE_ID_EN : String := "cef3bc4e0a84424cafcde6f2cf466c97"

/-- Global speech-rate setting of the Youtube variant (`VOICE_SPEED = 1.1`). -/
def VOICE_SPEED : Rat := 1.1

/-- Left-to-right, non-overlapping replacement scan over a character
list, the semantics of Python's `str.replace`: on a match the whole
pattern is consumed and the replacement emitted, otherwise one character
is copied. The fuel argument (instantiated with the input length, an
upper bound on the number of scan steps) makes the recursion structural. -/
def replaceFuel (pattern repl : List Char) : Nat → List Char → List Char
  | _, [] => []
  | 0, rest => rest
  | fuel + 1, c :: cs =>
    if !pattern.isEmpty && pattern.isPrefixOf (c :: cs) then
      repl ++ replaceFuel pattern repl fuel (List.drop (pattern.length - 1) cs)
    else
      c :: replaceFuel pattern repl fuel cs

/-- Python's `s.replace(pattern, repl)` for a non-empty pattern (the
scripts only ever call it with the literal patterns `"，"` and
`".mp4"`). -/
def pyReplace (s pattern repl : String) : String :=
  ⟨replaceFuel pattern.data repl.data s.data.length s.data⟩

/-- One character of the regex class `[一-鿿]` used by every
variant's language heuristic: a code point in the CJK Unified Ideographs
range. -/
def isCJKChar (c : Char) : Bool := 0x4e00 ≤ c.toNat && c.toNat ≤ 0x9fff

/-- The check `re.search(r"[一-鿿]", text)` succeeds iff some character of
`text` lies in the CJK range. -/
def hasCJK (text : String) : Bool := text.data.any isCJKChar

/-- Function `detect_voice_id` from `HeyGen_PPT/main.py`: Chinese voice when the
text contains a CJK character, English voice otherwise. -/
def detect_voice_id (text : String) : String :=
  if hasCJK text then VOICE_ID_ZH else VOICE_ID_EN

/-- Function `detect_voice_and_locale` from the `HeyGen_ppt(純產生影片功能)`
script: additionally returns the locale. -/
def detect_voice_and_locale (text : String) : String × String :=
  if hasCJK text then (VOICE_ID_ZH, "zh-TW") else (VOICE_ID_EN, "en-US")

/-- The `character` object of a scene in the submit payload. -/
structure Character where
  type : String
  talking_photo_id : String
  scale : Rat
  offset_x : Rat
  offset_y : Rat
  talking_style : Option String
  fit : Option String
deriving Repr, DecidableEq, Inhabited

/-- The `voice` object of a scene in the submit payload. -/
structure Voice where
  type : String
  voice_id : String
  input_text : String
  speed : Option Rat
  locale : Option String
deriving Repr, DecidableEq, Inhabited

/-- The `background` object of a scene in the submit payload. -/
structure Background where
  type : String
  image_asset_id : String
  fit : String
deriving Repr, DecidableEq, Inhabited

/-- One element of the `video_inputs` array. -/
structure Scene where
  character : Character
  voice : Voice
  background : Background
deriving Repr, DecidableEq, Inhabited

/-- Optional `dimension` object of the payload. -/
structure Dimension where
  width : Nat
  height : Nat
deriving Repr, DecidableEq, Inhabited

/-- JSON body sent to the `/v2/video/generate` endpoint. -/
structure VideoPayload where
  video_inputs : List Scene
  aspect_ratio : Option String
  test : Bool
  caption : Bool
  dimension : Option Dimension
deriving Repr, DecidableEq, Inhabited

/-- An outbound network request recorded by a run of the client. -/
inductive HttpCall where
  | uploadAsset (path : String)
  | generateVideo (payload : VideoPayload)
deriving Repr, DecidableEq

/-- True exactly on `/v2/video/generate` requests. -/
def HttpCall.isGenerate : HttpCall → Bool
  | .generateVideo _ => true
  | _ => false

/-- Scene built by `create_full_video` in `HeyGen_GoogleSearch/main.py`
(lines 287-308): static avatar placement, voice chosen by the inline CJK
regex, comma followed by a space inserted after each full-width comma. -/
def gsScene (bg_id script : String) : Scene :=
  { character := { type := "talking_photo", talking_photo_id := TALKING_PHOTO_ID,
                   scale := 0.25, offset_x := 0.4, offset_y := 0.4,
                   talking_style := none, fit := none },
    voice := { type := "text",
               voice_id := if hasCJK script then VOICE_ID_ZH else VOICE_ID_EN,
               input_text := pyReplace script "，" "， ",
               speed := none, locale := none },
    background := { type := "image", image_asset_id := bg_id, fit := "contain" } }

/-- Payload built by the GoogleSearch `create_full_video` from the
already-uploaded background asset ids: scenes come from
`zip(bg_ids, scripts)` in input order. -/
def gsPayload (bg_ids scripts : List String) : VideoPayload :=
  { video_inputs := (bg_ids.zip scripts).map (fun p => gsScene p.1 p.2),
    aspect_ratio := some "16:9", test := false, caption := true, dimension := none }

/-- GoogleSearch `create_full_video`, with the asset-upload step
abstracted as `upload : path → asset id`
(`bg_ids = list(executor.map(upload_to_heygen, image_paths))`). -/
def gs_create_full_video_payload (upload : String → String)
    (image_paths scripts : List String) : VideoPayload :=
  gsPayload (image_paths.map upload) scripts

/-- The outbound requests the GoogleSearch `create_full_video` performs:
one asset upload per input image, then exactly one generate POST; no
input validation precedes the POST. -/
def gs_create_full_video_calls (upload : String → String)
    (image_paths scripts : List String) : List HttpCall :=
  image_paths.map HttpCall.uploadAsset
    ++ [HttpCall.generateVideo (gs_create_full_video_payload upload image_paths scripts)]

/-- Scene built by the Youtube variant (lines 489-510): same as the
GoogleSearch one plus the global `speed` setting. -/
def ytScene (bg_id script : String) : Scene :=
  { character := { type := "talking_photo", talking_photo_id := TALKING_PHOTO_ID,
                   scale := 0.25, offset_x := 0.4, offset_y := 0.4,
                   talking_style := none, fit := none },
    voice := { type := "text",
               voice_id := if hasCJK script then VOICE_ID_ZH else VOICE_ID_EN,
               input_text := pyReplace script "，" "， ",
               speed := some VOICE_SPEED, locale := none },
    background := { type := "image", image_asset_id := bg_id, fit := "contain" } }

/-- Payload built by the Youtube `create_full_video` (`caption: False`). -/
def ytPayload (bg_ids scripts : List String) : VideoPayload :=
  { video_inputs := (bg_ids.zip scripts).map (fun p => ytScene p.1 p.2),
    aspect_ratio := some "16:9", test := false, caption := false, dimension := none }

/-- Youtube `create_full_video` with the upload step abstracted. -/
def yt_create_full_video_payload (upload : String → String)
    (image_paths scripts : List String) : VideoPayload :=
  ytPayload (image_paths.map upload) scripts

/-- Outbound requests of the Youtube `create_full_video`. -/
def yt_create_full_video_calls (upload : String → String)
    (image_paths scripts : List String) : List HttpCall :=
  image_paths.map HttpCall.uploadAsset
    ++ [HttpCall.generateVideo (yt_create_full_video_payload upload image_paths scripts)]

/-- Scene built by `create_full_video` in `HeyGen_PPT/main.py`
(lines 174-202): `talking_style`/`fit` set, `speed` 1.0, script passed
through unchanged, voice via `detect_voice_id`. -/
def pptScene (bg_id script : String) : Scene :=
  { character := { type := "talking_photo", talking_photo_id := TALKING_PHOTO_ID,
                   scale := 0.25, offset_x := 0.4, offset_y := 0.4,
                   talking_style := some "stable", fit := some "cover" },
    voice := { type := "text", voice_id := detect_voice_id script,
               input_text := script, speed := some 1, locale := none },
    background := { type := "image", image_asset_id := bg_id, fit := "contain" } }

/-- Payload built by the PPT `create_full_video`: scenes come from
`zip(image_paths, scripts)`, each image uploaded inside the loop. -/
def ppt_create_full_video_payload (upload : String → String)
    (image_paths scripts : List String) : VideoPayload :=
  { video_inputs := (image_paths.zip scripts).map (fun p => pptScene (upload p.1) p.2),
    aspect_ratio := some "16:9", test := false, caption := true,
    dimension := some { width := 1280, height := 720 } }

/-- Outbound requests of the PPT `create_full_video`: the upload happens
per zipped pair, then one generate POST; no input validation. -/
def ppt_create_full_video_calls (upload : String → String)
    (image_paths scripts : List String) : List HttpCall :=
  (image_paths.zip scripts).map (fun p => HttpCall.uploadAsset p.1)
    ++ [HttpCall.generateVideo (ppt_create_full_video_payload upload image_paths scripts)]

/-- The `data` object of a parsed generate-endpoint response body. -/
structure BodyData where
  video_id : Option String
deriving Repr, DecidableEq, Inhabited

/-- Parsed JSON body of a generate-endpoint response. `raw` is the body
text (`resp.text` / the parsed dict rendered into the exception
message). -/
structure ResponseBody where
  error : Option String
  data : Option BodyData
  raw : String
deriving Repr, DecidableEq, Inhabited

/-- An HTTP response to the submit POST. -/
structure HttpResponse where
  status_code : Nat
  body : ResponseBody
deriving Repr, DecidableEq, Inhabited

/-- Predicate `requests.Response.ok`: status code below 400. -/
def HttpResponse.respOk (r : HttpResponse) : Bool := r.status_code < 400

/-- How a submit call can fail. `transport`: the POST itself raised;
`rejectedWithBody`: an exception whose message embeds the response body;
`extraction`: a bare Python `KeyError`/`TypeError` from subscripting a
missing key — it does not carry the body. -/
inductive SubmitError where
  | transport (msg : String)
  | rejectedWithBody (body : String)
  | extraction (key : String)
deriving Repr, DecidableEq

/-- Result of the GoogleSearch `create_full_video` POST (lines 312-313):
no status or error-field check at all, the code runs
`resp.json()["data"]["video_id"]` directly, so a transport error
propagates and a missing key raises a bare extraction error. -/
def gs_submit (resp : Except String HttpResponse) : Except SubmitError String :=
  match resp with
  | .error e => .error (.transport e)
  | .ok r =>
    match r.body.data with
    | none => .error (.extraction "data")
    | some d =>
      match d.video_id with
      | none => .error (.extraction "video_id")
      | some v => .ok v

/-- Python truthiness of `data.get("error")`: absent or empty string is
falsy. -/
def errFalsy : Option String → Bool
  | none => true
  | some s => s = ""

/-- Result of the PPT `create_full_video` POST (lines 217-225):
`if response.status_code == 200 and not data.get("error")` return
`data["data"]["video_id"]`, else raise an exception embedding the parsed
body. -/
def ppt_submit (resp : Except String HttpResponse) : Except SubmitError String :=
  match resp with
  | .error e => .error (.transport e)
  | .ok r =>
    if r.status_code = 200 && errFalsy r.body.error then
      match r.body.data with
      | none => .error (.extraction "data")
      | some d =>
        match d.video_id with
        | none => .error (.extraction "video_id")
        | some v => .ok v
    else .error (.rejectedWithBody ("HeyGen 任務失敗: " ++ r.body.raw))

/-- Result of the Youtube `create_full_video` POST (lines 514-521):
`if not resp.ok` raise with `resp.text`, else extract
`resp.json()["data"]["video_id"]` with no error-field check. -/
def yt_submit (resp : Except String HttpResponse) : Except SubmitError String :=
  match resp with
  | .error e => .error (.transport e)
  | .ok r =>
    if r.respOk then
      match r.body.data with
      | none => .error (.extraction "data")
      | some d =>
      match d.video_id with
      | none => .error (.extraction "video_id")
      | some v => .ok v
    else .error (.rejectedWithBody ("HeyGen 影片生成請求被拒絕: " ++ r.body.raw))

/-! ## Polling loop (`download_video`) -/

/-- One observed outcome of a status poll: either the
`requests.get(...).json()` chain raised (connection failure or malformed
body), or a parsed response with the optional fields of `data`
(`status`, `video_url`, `caption_url`, `error`). -/
inductive PollStep where
  | transportError
  | ok (status : Option String) (video_url : Option String)
      (caption_url : Option String) (error : Option String)
deriving Repr, DecidableEq

/-- The two terminal statuses the loops check for. -/
def PollStep.terminal : PollStep → Bool
  | .ok st _ _ _ => st = some "completed" || st = some "failed"
  | .transportError => false

/-- Rendering of `data.get('error')` inside the Python f-string
`f"渲染失敗: {data.get('error')}"`. -/
def showErrOpt : Option String → String
  | some e => e
  | none => "None"

/-- Result of a run of the GoogleSearch `download_video` over a list of
successive poll outcomes. `polls` counts status requests issued,
`downloads` the artifact fetches performed, as `(url, local path)`
pairs; `result` is `none` while the supplied poll outcomes run out with
the loop still going, `some (.ok ())` on a normal return and
`some (.error m)` when the loop raises. -/
structure GSRun where
  polls : Nat
  downloads : List (String × String)
  result : Option (Except String Unit)
deriving Repr

/-- Function `download_video` of `HeyGen_GoogleSearch/main.py` (lines 315-345):
a transport error sleeps and re-polls; `"completed"` downloads the video
to `output_path` and, when present, the captions to the `.srt` sibling,
then breaks; `"failed"` raises `渲染失敗: …` with the service error
detail; any other status sleeps 15 s and re-polls. -/
def gs_download_video (output_path : String) : List PollStep → GSRun
  | [] => { polls := 0, downloads := [], result := none }
  | .transportError :: rest =>
    let r := gs_download_video output_path rest
    { polls := r.polls + 1, downloads := r.downloads, result := r.result }
  | .ok status vurl curl err :: rest =>
    if status = some "completed" then
      { polls := 1,
        downloads :=
          (match vurl with | some u => [(u, output_path)] | none => [])
            ++ (match curl with
                | some u => [(u, pyReplace output_path ".mp4" ".srt")]
                | none => []),
        result := some (.ok ()) }
    else if status = some "failed" then
      { polls := 1, downloads := [],
        result := some (.error ("渲染失敗: " ++ showErrOpt err)) }
    else
      let r := gs_download_video output_path rest
      { polls := r.polls + 1, downloads := r.downloads, result := r.result }

/-- How a run of the PPT `download_video` ends: either the loop broke
out of a `"completed"` iteration (video and caption written insofar as
their URLs were present and their fetches succeeded), or a `"failed"`
status was printed (`渲染失敗: …`) and the loop broke without
raising. -/
inductive PPTResult where
  | downloaded
  | renderFailedLogged (error : Option String)
deriving Repr, DecidableEq

/-- Result of a run of the PPT `download_video`. The whole loop body
sits inside `try/except Exception`, so an escaping exception would be
the only way to populate `some (.error _)`. -/
structure PPTRun where
  polls : Nat
  downloads : List String
  result : Option (Except String PPTResult)
deriving Repr

/-- Outcome of one iteration of the PPT `download_video` loop as driven
by the environment: the status-poll outcome, the optional fields of the
response's `data`, and — because the artifact fetches happen inside the
loop's `try` blocks — whether the video fetch (line 322, inside the
loop's outer `try`) and the caption fetch (line 331, inside its own
inner `try`) would succeed in this iteration. -/
inductive PPTPollStep where
  | transportError
  | ok (status : Option String) (video_url : Option String)
      (caption_url : Option String) (error : Option String)
      (videoFetchOk : Bool) (captionFetchOk : Bool)
deriving Repr, DecidableEq

/-- The two terminal statuses the PPT loop checks for. -/
def PPTPollStep.terminal : PPTPollStep → Bool
  | .ok st _ _ _ _ _ => st = some "completed" || st = some "failed"
  | .transportError => false

/-- Whether an iteration makes the PPT loop break: a `"failed"` status
always does; a `"completed"` status does only when no video fetch is
attempted (no `video_url`) or the video fetch succeeds — a raised video
fetch is caught by the loop's outer `except` and the loop re-polls. -/
def PPTPollStep.stops : PPTPollStep → Bool
  | .ok st vurl _ _ vOk _ =>
      st = some "failed" || (st = some "completed" && (vurl.isNone || vOk))
  | .transportError => false

/-- Function `download_video` of `HeyGen_PPT/main.py` (lines 304-367):
any exception in the loop body (transport failure, missing `data` or
`status` key, and also a raised video fetch after `"completed"`, since
line 322 sits inside the loop's outer `try`) is caught, sleeps 10 s and
re-polls; a `"completed"` iteration whose video fetch succeeds (or that
has no `video_url`) downloads what it can — the caption fetch sits in
its own inner `try`, so its failure only skips the caption file — and
breaks; `"failed"` prints the error and breaks without raising; any
other status sleeps and re-polls. -/
def ppt_download_video : List PPTPollStep → PPTRun
  | [] => { polls := 0, downloads := [], result := none }
  | .transportError :: rest =>
    let r := ppt_download_video rest
    { polls := r.polls + 1, downloads := r.downloads, result := r.result }
  | .ok none _ _ _ _ _ :: rest =>
    let r := ppt_download_video rest
    { polls := r.polls + 1, downloads := r.downloads, result := r.result }
  | .ok (some status) vurl curl err vOk cOk :: rest =>
    if status = "completed" then
      match vurl with
      | some u =>
        if vOk then
          { polls := 1,
            downloads := u :: (match curl with
              | some cu => if cOk then [cu] else []
              | none => []),
            result := some (.ok .downloaded) }
        else
          let r := ppt_download_video rest
          { polls := r.polls + 1, downloads := r.downloads, result := r.result }
      | none =>
        { polls := 1,
          downloads := (match curl with
            | some cu => if cOk then [cu] else []
            | none => []),
          result := some (.ok .downloaded) }
    else if status = "failed" then
      { polls := 1, downloads := [],
        result := some (.ok (.renderFailedLogged err)) }
    else
      let r := ppt_download_video rest
      { polls := r.polls + 1, downloads := r.downloads, result := r.result }

/-! ## Parallel asset upload (`ThreadPoolExecutor.map`) -/

/-- Fixed worker-pool size used for the parallel uploads
(`ThreadPoolExecutor(max_workers=5)`). -/
def MAX_WORKERS : Nat := 5

/-- One completion event of the concurrent upload fan-out: the worker
handling input index `j` finishes and stores its result at slot `j` of
the shared result list. -/
def uploadComplete (f : String → String) (inputs : List String)
    (acc : List (Option String)) (j : Nat) : List (Option String) :=
  acc.set j ((inputs.get? j).map f)

/-- The call `executor.map(upload_to_heygen, image_paths)` modelled as an
index-isolated gather: results land at their input index in whatever
completion order `order` the scheduler produces, starting from an
all-empty slot list. -/
def executor_map_gather (f : String → String) (inputs : List String)
    (order : List Nat) : List (Option String) :=
  order.foldl (uploadComplete f inputs) (List.replicate inputs.length none)

/-! ## Helper lemmas -/

/-- Indexing a mapped zip: element `i` combines element `i` of each
input list, for every index (both sides are `none` out of range). -/
theorem zip_map_getElem? {α β γ : Type} (f : α → β → γ) :
    ∀ (as : List α) (bs : List β) (i : Nat),
      ((as.zip bs).map (fun p => f p.1 p.2))[i]?
        = (as[i]?).bind fun a => (bs[i]?).map fun b => f a b
  | [], _, _ => by simp
  | _ :: _, [], i => by cases i <;> simp
  | _ :: _, _ :: _, 0 => by simp
  | _ :: as, _ :: bs, i + 1 => by simpa using zip_map_getElem? f as bs i

/-- If the GoogleSearch poll loop returned, the status request it
stopped at saw a terminal status, every earlier poll was non-terminal,
and no request beyond it was issued. -/
theorem gs_download_terminal_structure (out : String) :
    ∀ steps : List PollStep, (gs_download_video out steps).result.isSome →
      ∃ k st, (gs_download_video out steps).polls = k + 1 ∧
        (steps.take k).all (fun s => ! s.terminal) = true ∧
        steps[k]? = some st ∧ st.terminal = true
  | [] => by simp [gs_download_video]
  | .transportError :: rest => by
    intro h
    simp only [gs_download_video] at h
    obtain ⟨k, st, hp, ht, hg, hterm⟩ := gs_download_terminal_structure out rest h
    refine ⟨k + 1, st, ?_, ?_, ?_, hterm⟩
    · simp [gs_download_video, hp]
    · rw [List.take_succ_cons, List.all_cons, ht]
      simp [PollStep.terminal]
    · simpa using hg
  | .ok status vurl curl err :: rest => by
    intro h
    by_cases hc : status = some "completed"
    · exact ⟨0, .ok status vurl curl err,
        by simp [gs_download_video, hc], by simp,
        by simp, by simp [PollStep.terminal, hc]⟩
    · by_cases hf : status = some "failed"
      · exact ⟨0, .ok status vurl curl err,
          by simp [gs_download_video, hc, hf], by simp,
          by simp, by simp [PollStep.terminal, hf]⟩
      · simp only [gs_download_video, hc, hf, if_false] at h
        obtain ⟨k, st, hp, ht, hg, hterm⟩ := gs_download_terminal_structure out rest h
        refine ⟨k + 1, st, ?_, ?_, ?_, hterm⟩
        · simp [gs_download_video, hc, hf, hp]
        · rw [List.take_succ_cons, List.all_cons, ht]
          simp [PollStep.terminal, hc, hf]
        · simpa using hg

/-- While every poll outcome is non-terminal, the GoogleSearch loop
never returns. -/
theorem gs_download_nonterminal_none (out : String) :
    ∀ steps : List PollStep, steps.all (fun s => ! s.terminal) = true →
      (gs_download_video out steps).result = none
  | [] => by simp [gs_download_video]
  | .transportError :: rest => by
    intro h
    simp only [List.all_cons, Bool.and_eq_true] at h
    simp [gs_download_video, gs_download_nonterminal_none out rest h.2]
  | .ok status vurl curl err :: rest => by
    intro h
    simp only [List.all_cons, Bool.and_eq_true, PollStep.terminal,
      Bool.not_eq_true', Bool.or_eq_false_iff, decide_eq_false_iff_not] at h
    simp [gs_download_video, h.1.1, h.1.2,
      gs_download_nonterminal_none out rest h.2]

/-- If the PPT poll loop broke out, the iteration it stopped at was a
stopping one — in particular its status request saw a terminal status —
every earlier iteration was non-stopping, and no status request beyond
it was issued. -/
theorem ppt_download_stop_structure :
    ∀ steps : List PPTPollStep, (ppt_download_video steps).result.isSome →
      ∃ k st, (ppt_download_video steps).polls = k + 1 ∧
        (steps.take k).all (fun s => ! s.stops) = true ∧
        steps[k]? = some st ∧ st.stops = true ∧ st.terminal = true
  | [] => by simp [ppt_download_video]
  | .transportError :: rest => by
    intro h
    simp only [ppt_download_video] at h
    obtain ⟨k, st, hp, ht, hg, hst, hterm⟩ := ppt_download_stop_structure rest h
    refine ⟨k + 1, st, ?_, ?_, ?_, hst, hterm⟩
    · simp [ppt_download_video, hp]
    · rw [List.take_succ_cons, List.all_cons, ht]
      simp [PPTPollStep.stops]
    · simpa using hg
  | .ok none vurl curl err vOk cOk :: rest => by
    intro h
    simp only [ppt_download_video] at h
    obtain ⟨k, st, hp, ht, hg, hst, hterm⟩ := ppt_download_stop_structure rest h
    refine ⟨k + 1, st, ?_, ?_, ?_, hst, hterm⟩
    · simp [ppt_download_video, hp]
    · rw [List.take_succ_cons, List.all_cons, ht]
      simp [PPTPollStep.stops]
    · simpa using hg
  | .ok (some status) vurl curl err vOk cOk :: rest => by
    intro h
    by_cases hc : status = "completed"
    · cases vurl with
      | some u =>
        cases vOk with
        | false =>
          simp only [ppt_download_video, hc, if_true, reduceIte,
            Bool.false_eq_true, if_false] at h
          obtain ⟨k, st, hp, ht, hg, hst, hterm⟩ :=
            ppt_download_stop_structure rest h
          refine ⟨k + 1, st, ?_, ?_, ?_, hst, hterm⟩
          · simp [ppt_download_video, hc, hp]
          · rw [List.take_succ_cons, List.all_cons, ht]
            simp [PPTPollStep.stops, hc]
          · simpa using hg
        | true =>
          exact ⟨0, .ok (some status) (some u) curl err true cOk,
            by simp [ppt_download_video, hc], by simp, by simp,
            by simp [PPTPollStep.stops, hc],
            by simp [PPTPollStep.terminal, hc]⟩
      | none =>
        exact ⟨0, .ok (some status) none curl err vOk cOk,
          by simp [ppt_download_video, hc], by simp, by simp,
          by simp [PPTPollStep.stops, hc],
          by simp [PPTPollStep.terminal, hc]⟩
    · by_cases hf : status = "failed"
      · exact ⟨0, .ok (some status) vurl curl err vOk cOk,
          by simp [ppt_download_video, hc, hf], by simp, by simp,
          by simp [PPTPollStep.stops, hf],
          by simp [PPTPollStep.terminal, hf]⟩
      · simp only [ppt_download_video, hc, hf, if_false] at h
        obtain ⟨k, st, hp, ht, hg, hst, hterm⟩ :=
          ppt_download_stop_structure rest h
        refine ⟨k + 1, st, ?_, ?_, ?_, hst, hterm⟩
        · simp [ppt_download_video, hc, hf, hp]
        · rw [List.take_succ_cons, List.all_cons, ht]
          simp [PPTPollStep.stops, hc, hf]
        · simpa using hg

/-- While no iteration is a stopping one — terminal statuses whose
video fetch fails included — the PPT loop never returns. -/
theorem ppt_download_nonstop_none :
    ∀ steps : List PPTPollStep, steps.all (fun s => ! s.stops) = true →
      (ppt_download_video steps).result = none
  | [] => by simp [ppt_download_video]
  | .transportError :: rest => by
    intro h
    simp only [List.all_cons, Bool.and_eq_true] at h
    simp [ppt_download_video, ppt_download_nonstop_none rest h.2]
  | .ok none vurl curl err vOk cOk :: rest => by
    intro h
    simp only [List.all_cons, Bool.and_eq_true] at h
    simp [ppt_download_video, ppt_download_nonstop_none rest h.2]
  | .ok (some status) vurl curl err vOk cOk :: rest => by
    intro h
    simp only [List.all_cons, Bool.and_eq_true, PPTPollStep.stops,
      Bool.not_eq_true', Bool.or_eq_false_iff, Bool.and_eq_false_iff,
      decide_eq_false_iff_not, Option.some.injEq] at h
    have hf : ¬ status = "failed" := h.1.1
    by_cases hc : status = "completed"
    · rcases h.1.2 with hcon | hvid
      · exact absurd hc hcon
      · cases vurl with
        | some u =>
          cases vOk with
          | false =>
            simp [ppt_download_video, hc, ppt_download_nonstop_none rest h.2]
          | true => simp at hvid
        | none => simp at hvid
    · simp [ppt_download_video, hc, hf, ppt_download_nonstop_none rest h.2]

/-- The gather fold never changes the number of result slots. -/
theorem foldl_uploadComplete_length (f : String → String) (inputs : List String) :
    ∀ (order : List Nat) (acc : List (Option String)),
      (order.foldl (uploadComplete f inputs) acc).length = acc.length
  | [], _ => rfl
  | j :: order, acc => by
    rw [List.foldl_cons, foldl_uploadComplete_length f inputs order]
    simp [uploadComplete]

/-- A result slot no remaining completion event names keeps its value. -/
theorem foldl_uploadComplete_not_mem (f : String → String) (inputs : List String) :
    ∀ (order : List Nat) (acc : List (Option String)) (i : Nat), i ∉ order →
      (order.foldl (uploadComplete f inputs) acc)[i]? = acc[i]?
  | [], _, _, _ => rfl
  | j :: order, acc, i, h => by
    have hij : j ≠ i := fun e => h (e ▸ List.mem_cons_self j order)
    rw [List.foldl_cons,
      foldl_uploadComplete_not_mem f inputs order _ i
        (fun hm => h (List.mem_cons_of_mem _ hm))]
    simp [uploadComplete, List.getElem?_set_ne hij]

/-- A result slot some completion event names ends up holding the upload
result for its own input index, no matter where in the completion order
that event sits. -/
theorem foldl_uploadComplete_mem (f : String → String) (inputs : List String) :
    ∀ (order : List Nat) (acc : List (Option String)) (i : Nat),
      i ∈ order → i < acc.length →
      (order.foldl (uploadComplete f inputs) acc)[i]? = some ((inputs[i]?).map f)
  | [], _, _, h, _ => absurd h (List.not_mem_nil _)
  | j :: order, acc, i, h, hlen => by
    rw [List.foldl_cons]
    by_cases hio : i ∈ order
    · exact foldl_uploadComplete_mem f inputs order _ i hio
        (by simp [uploadComplete, hlen])
    · have hij : i = j := by
        rcases List.mem_cons.mp h with h1 | h2
        · exact h1
        · exact absurd h2 hio
      subst hij
      rw [foldl_uploadComplete_not_mem f inputs order _ i hio]
      simpa [uploadComplete] using List.getElem?_set_eq_of_lt ((inputs[i]?).map f) hlen

/-- When the GoogleSearch poll loop raises, it downloaded nothing and
its message is the render-failure message built from the error field of
a `"failed"` response in the poll sequence. -/
theorem gs_download_error_structure (out : String) :
    ∀ (steps : List PollStep) (m : String),
      (gs_download_video out steps).result = some (Except.error m) →
      (gs_download_video out steps).downloads = [] ∧
      ∃ (k : Nat) (vurl curl err : Option String),
        steps[k]? = some (PollStep.ok (some "failed") vurl curl err) ∧
        m = "渲染失敗: " ++ showErrOpt err
  | [], m => by simp [gs_download_video]
  | .transportError :: rest, m => by
    intro h
    simp only [gs_download_video] at h
    obtain ⟨hd, k, vurl, curl, err, hg, hm⟩ :=
      gs_download_error_structure out rest m h
    refine ⟨?_, k + 1, vurl, curl, err, ?_, hm⟩
    · simp [gs_download_video, hd]
    · simpa using hg
  | .ok status vurl curl err :: rest, m => by
    intro h
    by_cases hc : status = some "completed"
    · simp [gs_download_video, hc] at h
    · by_cases hf : status = some "failed"
      · have hres : (gs_download_video out
              (PollStep.ok status vurl curl err :: rest)).result
            = some (Except.error ("渲染失敗: " ++ showErrOpt err)) := by
          simp [gs_download_video, hc, hf]
        rw [hres] at h
        simp only [Option.some.injEq, Except.error.injEq] at h
        refine ⟨by simp [gs_download_video, hc, hf],
          0, vurl, curl, err, ?_, h.symm⟩
        simp [hf]
      · simp only [gs_download_video, hc, hf, if_false] at h
        obtain ⟨hd, k, vurl2, curl2, err2, hg, hm⟩ :=
          gs_download_error_structure out rest m h
        refine ⟨?_, k + 1, vurl2, curl2, err2, ?_, hm⟩
        · simp [gs_download_video, hc, hf, hd]
        · simpa using hg

/-- The PPT poll loop never lets an exception escape: every iteration
sits inside `try/except` (a raised artifact fetch included), and the
`"failed"` branch merely prints. -/
theorem ppt_download_no_raise :
    ∀ (steps : List PPTPollStep) (e : String),
      (ppt_download_video steps).result ≠ some (Except.error e)
  | [], e => by simp [ppt_download_video]
  | .transportError :: rest, e => by
    simpa [ppt_download_video] using ppt_download_no_raise rest e
  | .ok none vurl curl err vOk cOk :: rest, e => by
    simpa [ppt_download_video] using ppt_download_no_raise rest e
  | .ok (some status) vurl curl err vOk cOk :: rest, e => by
    by_cases hc : status = "completed"
    · cases vurl with
      | some u =>
        cases vOk with
        | false =>
          simpa [ppt_download_video, hc] using ppt_download_no_raise rest e
        | true => simp [ppt_download_video, hc]
      | none => simp [ppt_download_video, hc]
    · by_cases hf : status = "failed"
      · simp [ppt_download_video, hc, hf]
      · simpa [ppt_download_video, hc, hf] using ppt_download_no_raise rest e

/-! ## Claims -/

/-- **C7**: for every script text, the voice-selection function returns
the Chinese voice id — and, in the locale-setting variant, locale
`zh-TW` — exactly when the text contains a character in the CJK
code-point range, and the English voice id (locale `en-US`) exactly when
it contains none. -/
theorem C7_voice_selection (t : String) :
    (detect_voice_id t = VOICE_ID_ZH
        ↔ ∃ c ∈ t.data, 0x4e00 ≤ c.toNat ∧ c.toNat ≤ 0x9fff) ∧
    (detect_voice_id t = VOICE_ID_EN
        ↔ ¬ ∃ c ∈ t.data, 0x4e00 ≤ c.toNat ∧ c.toNat ≤ 0x9fff) ∧
    (detect_voice_and_locale t = (VOICE_ID_ZH, "zh-TW")
        ↔ ∃ c ∈ t.data, 0x4e00 ≤ c.toNat ∧ c.toNat ≤ 0x9fff) ∧
    (detect_voice_and_locale t = (VOICE_ID_EN, "en-US")
        ↔ ¬ ∃ c ∈ t.data, 0x4e00 ≤ c.toNat ∧ c.toNat ≤ 0x9fff) := by
  have hne : VOICE_ID_ZH ≠ VOICE_ID_EN := by decide
  have key : hasCJK t = true
      ↔ ∃ c ∈ t.data, 0x4e00 ≤ c.toNat ∧ c.toNat ≤ 0x9fff := by
    simp [hasCJK, isCJKChar, List.any_eq_true, Bool.and_eq_true,
      decide_eq_true_iff]
  rcases Bool.eq_false_or_eq_true (hasCJK t) with h | h
  · rw [h] at key
    simp only [detect_voice_id, detect_voice_and_locale, h, if_false,
      Bool.false_eq_true, reduceIte]
    refine ⟨?_, ?_, ?_, ?_⟩ <;>
      simp [← key, hne, Ne.symm hne, Prod.ext_iff]
  · rw [h] at key
    simp only [detect_voice_id, detect_voice_and_locale, h, if_true, reduceIte]
    refine ⟨?_, ?_, ?_, ?_⟩ <;>
      simp [← key, hne, Ne.symm hne, Prod.ext_iff]

/-- **C10**: in every variant the number of scenes in the submitted
payload is the minimum of the image-list and script-list lengths —
`zip` silently drops the surplus of the longer list and the assembly
functions are total, so no error is raised for mismatched lengths. -/
theorem C10_scene_count_is_min (upload : String → String)
    (imgs scripts : List String) :
    (gs_create_full_video_payload upload imgs scripts).video_inputs.length
        = min imgs.length scripts.length ∧
    (yt_create_full_video_payload upload imgs scripts).video_inputs.length
        = min imgs.length scripts.length ∧
    (ppt_create_full_video_payload upload imgs scripts).video_inputs.length
        = min imgs.length scripts.length := by
  refine ⟨?_, ?_, ?_⟩ <;>
    simp [gs_create_full_video_payload, yt_create_full_video_payload,
      ppt_create_full_video_payload, gsPayload, ytPayload,
      List.length_zip]

/-- **C8** (counterexample): called with an empty scene list, the
GoogleSearch `create_full_video` does not reject locally — it still
issues the network POST to the generation endpoint, with an empty
`video_inputs` array. -/
theorem C8_counterexample :
    gs_create_full_video_calls (fun _ => "asset_id") [] []
        = [HttpCall.generateVideo (gsPayload [] [])] ∧
    (gsPayload [] []).video_inputs = [] :=
  ⟨rfl, rfl⟩

/-- **C8** (amended): no variant performs a local emptiness check:
invoked with empty lists, each one issues exactly one request — the
generation POST, whose `video_inputs` array is empty. -/
theorem C8_amended_no_local_empty_check (upload : String → String) :
    gs_create_full_video_calls upload [] []
        = [HttpCall.generateVideo (gsPayload [] [])] ∧
    (gsPayload [] []).video_inputs = [] ∧
    yt_create_full_video_calls upload [] []
        = [HttpCall.generateVideo (ytPayload [] [])] ∧
    (ytPayload [] []).video_inputs = [] ∧
    ppt_create_full_video_calls upload [] []
        = [HttpCall.generateVideo (ppt_create_full_video_payload upload [] [])] ∧
    (ppt_create_full_video_payload upload [] []).video_inputs = [] :=
  ⟨rfl, rfl, rfl, rfl, rfl, rfl⟩

/-- **C1**: for every non-empty image list with matching script list,
the submission payload built by `create_full_video` lists scenes in
exactly the input order — there are as many scenes as inputs, scene `i`
is built from the upload result of image `i` and script `i`, its
background `image_asset_id` is that upload result and its `input_text`
derives from script `i` — in the GoogleSearch and Youtube variants. -/
theorem C1_submit_preserves_scene_order (upload : String → String)
    (images scripts : List String)
    (hne : images ≠ []) (hlen : scripts.length = images.length) :
    (gs_create_full_video_payload upload images scripts).video_inputs.length
        = images.length ∧
    (∀ i : Nat,
      (gs_create_full_video_payload upload images scripts).video_inputs[i]?
        = (images[i]?).bind fun img =>
            (scripts[i]?).map fun s => gsScene (upload img) s) ∧
    (∀ (i : Nat) (img s : String),
      images[i]? = some img → scripts[i]? = some s →
      ∃ scene : Scene,
        (gs_create_full_video_payload upload images scripts).video_inputs[i]?
            = some scene ∧
        scene.background.image_asset_id = upload img ∧
        scene.voice.input_text = pyReplace s "，" "， ") ∧
    (yt_create_full_video_payload upload images scripts).video_inputs.length
        = images.length ∧
    (∀ i : Nat,
      (yt_create_full_video_payload upload images scripts).video_inputs[i]?
        = (images[i]?).bind fun img =>
            (scripts[i]?).map fun s => ytScene (upload img) s) := by
  have hg : ∀ i : Nat,
      (gs_create_full_video_payload upload images scripts).video_inputs[i]?
        = (images[i]?).bind fun img =>
            (scripts[i]?).map fun s => gsScene (upload img) s := by
    intro i
    show (((images.map upload).zip scripts).map
        (fun p => gsScene p.1 p.2))[i]? = _
    rw [zip_map_getElem? gsScene (images.map upload) scripts i,
      List.getElem?_map]
    cases images[i]? <;> simp
  have hy : ∀ i : Nat,
      (yt_create_full_video_payload upload images scripts).video_inputs[i]?
        = (images[i]?).bind fun img =>
            (scripts[i]?).map fun s => ytScene (upload img) s := by
    intro i
    show (((images.map upload).zip scripts).map
        (fun p => ytScene p.1 p.2))[i]? = _
    rw [zip_map_getElem? ytScene (images.map upload) scripts i,
      List.getElem?_map]
    cases images[i]? <;> simp
  refine ⟨?_, hg, ?_, ?_, hy⟩
  · simp [gs_create_full_video_payload, gsPayload, List.length_zip, hlen]
  · intro i img s hi hs
    refine ⟨gsScene (upload img) s, ?_, rfl, rfl⟩
    rw [hg i, hi, hs]
    rfl
  · simp [yt_create_full_video_payload, ytPayload, List.length_zip, hlen]

/-- Witness for C1: two images, two scripts, concrete upload map. -/
theorem C1_witness :
    (["slide_1.png", "slide_2.png"] : List String) ≠ [] ∧
    (["大家好，歡迎", "hello world"] : List String).length
        = (["slide_1.png", "slide_2.png"] : List String).length ∧
    (gs_create_full_video_payload (fun p => p ++ "-asset")
        ["slide_1.png", "slide_2.png"]
        ["大家好，歡迎", "hello world"]).video_inputs.length = 2 :=
  ⟨by simp, rfl,
    (C1_submit_preserves_scene_order (fun p => p ++ "-asset")
      ["slide_1.png", "slide_2.png"] ["大家好，歡迎", "hello world"]
      (by simp) rfl).1⟩

/-- **C2** (counterexample): the PPT poll loop can observe the terminal
status `"completed"` and still issue further status requests: when the
video fetch of that iteration raises (it sits inside the loop's outer
`try`), the exception is caught and the loop re-polls — here the first
status request sees `"completed"`, yet a second status request is
issued and the run is still polling. -/
theorem C2_counterexample :
    PPTPollStep.terminal
        (PPTPollStep.ok (some "completed") (some "v-url") none none false false)
      = true ∧
    (ppt_download_video
        [PPTPollStep.ok (some "completed") (some "v-url") none none false false,
         PPTPollStep.ok (some "processing") none none none true true]).polls
      = 2 ∧
    (ppt_download_video
        [PPTPollStep.ok (some "completed") (some "v-url") none none false false,
         PPTPollStep.ok (some "processing") none none none true true]).downloads
      = [] ∧
    (ppt_download_video
        [PPTPollStep.ok (some "completed") (some "v-url") none none false false,
         PPTPollStep.ok (some "processing") none none none true true]).result
      = none :=
  ⟨rfl, rfl, rfl, rfl⟩

/-- **C2** (amended): neither loop returns before observing a terminal
status — whenever a run ends, the iteration it stopped at saw
`"completed"` or `"failed"`, and no status request follows it. The
GoogleSearch loop stops at the first terminal status, with every
earlier poll non-terminal. The PPT loop stops at the first *stopping*
iteration — `"failed"`, or `"completed"` whose video fetch succeeds or
is not attempted — with every earlier iteration non-stopping; a
`"completed"` whose video fetch raises is caught and the loop keeps
polling, and a run with no stopping iteration does not return. -/
theorem C2_amended_poll_stop_discipline (out : String)
    (steps1 : List PollStep) (steps2 : List PPTPollStep)
    (steps3 : List PollStep) (steps4 : List PPTPollStep)
    (h1 : (gs_download_video out steps1).result.isSome = true)
    (h2 : (ppt_download_video steps2).result.isSome = true)
    (h3 : steps3.all (fun s => ! s.terminal) = true)
    (h4 : steps4.all (fun s => ! s.stops) = true) :
    (∃ k st, (gs_download_video out steps1).polls = k + 1 ∧
        (steps1.take k).all (fun s => ! s.terminal) = true ∧
        steps1[k]? = some st ∧ st.terminal = true) ∧
    (∃ k st, (ppt_download_video steps2).polls = k + 1 ∧
        (steps2.take k).all (fun s => ! s.stops) = true ∧
        steps2[k]? = some st ∧ st.stops = true ∧ st.terminal = true) ∧
    (gs_download_video out steps3).result = none ∧
    (ppt_download_video steps4).result = none :=
  ⟨gs_download_terminal_structure out steps1 h1,
   ppt_download_stop_structure steps2 h2,
   gs_download_nonterminal_none out steps3 h3,
   ppt_download_nonstop_none steps4 h4⟩

/-- Witness for C2 (amended): the PPT loop rides over a `"completed"`
iteration whose video fetch fails and stops at the following
`"failed"`. -/
theorem C2_amended_witness :
    (ppt_download_video
        [PPTPollStep.ok (some "completed") (some "v-url") none none false false,
         PPTPollStep.ok (some "failed") none none (some "x") true true]).result.isSome
      = true ∧
    (∃ k st, (ppt_download_video
        [PPTPollStep.ok (some "completed") (some "v-url") none none false false,
         PPTPollStep.ok (some "failed") none none (some "x") true true]).polls
          = k + 1 ∧
      (([PPTPollStep.ok (some "completed") (some "v-url") none none false false,
         PPTPollStep.ok (some "failed") none none (some "x") true true].take k).all
            (fun s => ! s.stops)) = true ∧
      [PPTPollStep.ok (some "completed") (some "v-url") none none false false,
       PPTPollStep.ok (some "failed") none none (some "x") true true][k]?
          = some st ∧
      st.stops = true ∧ st.terminal = true) :=
  ⟨rfl,
    (C2_amended_poll_stop_discipline "news.mp4"
      [PollStep.transportError,
       PollStep.ok (some "processing") none none none,
       PollStep.ok (some "completed") (some "v-url") none none]
      [PPTPollStep.ok (some "completed") (some "v-url") none none false false,
       PPTPollStep.ok (some "failed") none none (some "x") true true]
      [PollStep.ok (some "processing") none none none]
      [PPTPollStep.ok (some "completed") (some "u") none none false false]
      rfl rfl rfl rfl).2.1⟩

/-- **C3**: a transport error during a status poll does not terminate
the polling loop (the run continues exactly as without it, after one
more status request), an all-transport-error poll sequence keeps the
loop running forever, while a transport error during the submit POST
propagates immediately as an error in every variant, and the
GoogleSearch `create_full_video` issues exactly one generation request
(no retry). -/
theorem C3_transport_error_policy (out e : String) (rest : List PollStep)
    (prest : List PPTPollStep)
    (n : Nat) (upload : String → String) (imgs scripts : List String) :
    (gs_download_video out (PollStep.transportError :: rest)).result
        = (gs_download_video out rest).result ∧
    (gs_download_video out (PollStep.transportError :: rest)).polls
        = (gs_download_video out rest).polls + 1 ∧
    (gs_download_video out (List.replicate n PollStep.transportError)).result
        = none ∧
    (ppt_download_video (PPTPollStep.transportError :: prest)).result
        = (ppt_download_video prest).result ∧
    gs_submit (Except.error e) = Except.error (SubmitError.transport e) ∧
    yt_submit (Except.error e) = Except.error (SubmitError.transport e) ∧
    ppt_submit (Except.error e) = Except.error (SubmitError.transport e) ∧
    (gs_create_full_video_calls upload imgs scripts).countP
        (fun c => c.isGenerate) = 1 := by
  refine ⟨?_, ?_, ?_, ?_, rfl, rfl, rfl, ?_⟩
  · simp [gs_download_video]
  · simp [gs_download_video]
  · refine gs_download_nonterminal_none out _ ?_
    induction n with
    | zero => simp
    | succ k ih => simp [List.replicate_succ, PollStep.terminal, ih]
  · simp [ppt_download_video]
  · have h0 : ∀ l : List String,
        (l.map HttpCall.uploadAsset).countP (fun c => c.isGenerate) = 0 := by
      intro l
      induction l with
      | nil => rfl
      | cons a t ih => simp [List.countP_cons, HttpCall.isGenerate, ih]
    simp [gs_create_full_video_calls, List.countP_append, h0,
      List.countP_cons, HttpCall.isGenerate]

/-- **C4** (counterexample): on a `"failed"` status with service error
detail `"invalid asset"`, the PPT variant's `download_video` does not
raise a render-failure error — it returns normally (an `Except.ok`
result recording that the failure was only printed), though it does
issue no download. -/
theorem C4_counterexample :
    (ppt_download_video
        [PPTPollStep.ok (some "failed") none none (some "invalid asset")
          true true]).result
      = some (Except.ok (PPTResult.renderFailedLogged (some "invalid asset"))) ∧
    (ppt_download_video
        [PPTPollStep.ok (some "failed") none none (some "invalid asset")
          true true]).downloads
      = [] :=
  ⟨rfl, rfl⟩

/-- **C4** (amended): when the GoogleSearch (or Youtube) poll loop
raises, it downloaded nothing and its error message is the
render-failure message built from the exact service-reported error
detail of a `"failed"` response; the PPT variant likewise stops polling
at `"failed"` with no download, but only logs the failure and returns
normally — it never raises. -/
theorem C4_amended_render_failure (out m : String)
    (steps : List PollStep) (steps2 : List PPTPollStep)
    (h : (gs_download_video out steps).result = some (Except.error m)) :
    (gs_download_video out steps).downloads = [] ∧
    (∃ (k : Nat) (vurl curl err : Option String),
        steps[k]? = some (PollStep.ok (some "failed") vurl curl err) ∧
        m = "渲染失敗: " ++ showErrOpt err) ∧
    (∀ (vurl curl err : Option String) (vOk cOk : Bool)
        (rest : List PPTPollStep),
        ppt_download_video
            (PPTPollStep.ok (some "failed") vurl curl err vOk cOk :: rest)
          = { polls := 1, downloads := [],
              result := some (Except.ok (PPTResult.renderFailedLogged err)) }) ∧
    (∀ e2 : String,
        (ppt_download_video steps2).result ≠ some (Except.error e2)) := by
  obtain ⟨hd, hex⟩ := gs_download_error_structure out steps m h
  exact ⟨hd, hex, fun vurl curl err vOk cOk rest => rfl,
    fun e2 => ppt_download_no_raise steps2 e2⟩

/-- Witness for C4 (amended): a single `"failed"` poll with detail. -/
theorem C4_amended_witness :
    (gs_download_video "o.mp4"
        [PollStep.ok (some "failed") none none (some "boom")]).result
      = some (Except.error "渲染失敗: boom") ∧
    (gs_download_video "o.mp4"
        [PollStep.ok (some "failed") none none (some "boom")]).downloads = [] :=
  ⟨rfl,
    (C4_amended_render_failure "o.mp4" "渲染失敗: boom"
      [PollStep.ok (some "failed") none none (some "boom")] [] rfl).1⟩

/-- **C5** (counterexample): the GoogleSearch submit performs no status
or error-field check: on a 400 response with an error field it fails
with a bare key-extraction error, not a rejection carrying the raw
response body. -/
theorem C5_counterexample :
    gs_submit (Except.ok
        { status_code := 400,
          body := { error := some "quota exceeded", data := none,
                    raw := "error quota exceeded" } })
      = Except.error (SubmitError.extraction "data") ∧
    SubmitError.extraction "data"
        ≠ SubmitError.rejectedWithBody "error quota exceeded" :=
  ⟨rfl, by decide⟩

/-- **C5** (amended): in the PPT variant a non-200 status or a truthy
error field yields a rejection error carrying the response body and a
conforming 200 response yields the `video_id` from its data field, with
no retry; the Youtube variant signals the body-carrying rejection for
non-success HTTP status only. -/
theorem C5_amended_submit_rejection (r : HttpResponse)
    (h : ¬ (r.status_code = 200 ∧ errFalsy r.body.error = true)) :
    ppt_submit (Except.ok r)
        = Except.error (SubmitError.rejectedWithBody
            ("HeyGen 任務失敗: " ++ r.body.raw)) ∧
    (∀ (r2 : HttpResponse) (d : BodyData) (v : String),
        r2.status_code = 200 → errFalsy r2.body.error = true →
        r2.body.data = some d → d.video_id = some v →
        ppt_submit (Except.ok r2) = Except.ok v) ∧
    (∀ r3 : HttpResponse, r3.respOk = false →
        yt_submit (Except.ok r3)
          = Except.error (SubmitError.rejectedWithBody
              ("HeyGen 影片生成請求被拒絕: " ++ r3.body.raw))) := by
  refine ⟨?_, ?_, ?_⟩
  · have hb : (decide (r.status_code = 200) && errFalsy r.body.error) = false := by
      by_cases h200 : r.status_code = 200
      · rcases Bool.eq_false_or_eq_true (errFalsy r.body.error) with he | he
        · exact absurd ⟨h200, he⟩ h
        · simp [he]
      · simp [h200]
    simp [ppt_submit, hb]
  · intro r2 d v h200 herr hdata hvid
    simp [ppt_submit, h200, herr, hdata, hvid]
  · intro r3 h3
    simp [yt_submit, h3]

/-- Witness for C5 (amended): a concrete 500 response. -/
theorem C5_amended_witness :
    ppt_submit (Except.ok
        { status_code := 500,
          body := { error := some "internal", data := none,
                    raw := "internal error body" } })
      = Except.error
          (SubmitError.rejectedWithBody "HeyGen 任務失敗: internal error body") :=
  (C5_amended_submit_rejection
    { status_code := 500,
      body := { error := some "internal", data := none,
                raw := "internal error body" } }
    (by simp)).1

/-- **C6**: whatever completion order the worker pool produces, the
gathered upload results equal the in-order map of the upload function
over the inputs: the result list has the input list's length and slot
`i` holds the upload result of input `i`. -/
theorem C6_parallel_upload_order (f : String → String) (inputs : List String)
    (order : List Nat)
    (hcover : ∀ i, i < inputs.length → i ∈ order) :
    executor_map_gather f inputs order = (inputs.map f).map some ∧
    (executor_map_gather f inputs order).length = inputs.length ∧
    (∀ (i : Nat) (a : String), inputs[i]? = some a →
      (executor_map_gather f inputs order)[i]? = some (some (f a))) := by
  have hlen : (executor_map_gather f inputs order).length = inputs.length := by
    simpa [executor_map_gather] using
      foldl_uploadComplete_length f inputs order
        (List.replicate inputs.length none)
  have hpt : ∀ i : Nat, (executor_map_gather f inputs order)[i]?
      = ((inputs.map f).map some)[i]? := by
    intro i
    by_cases hi : i < inputs.length
    · rw [executor_map_gather,
        foldl_uploadComplete_mem f inputs order _ i (hcover i hi)
          (by simpa using hi)]
      have ha : inputs[i]? = some (inputs[i]) := List.getElem?_eq_getElem hi
      simp [List.getElem?_map, ha]
    · have h1 : (executor_map_gather f inputs order)[i]? = none :=
        List.getElem?_eq_none (by rw [hlen]; exact Nat.le_of_not_lt hi)
      have h2 : ((inputs.map f).map some)[i]? = none :=
        List.getElem?_eq_none (by simpa using Nat.le_of_not_lt hi)
      rw [h1, h2]
  have heq : executor_map_gather f inputs order = (inputs.map f).map some :=
    List.ext_getElem? hpt
  refine ⟨heq, hlen, ?_⟩
  intro i a ha
  rw [heq]
  simp [List.getElem?_map, ha]

/-- Witness for C6: three uploads completing out of order (2, 0, 1)
still gather in input order. -/
theorem C6_witness :
    executor_map_gather (fun p => p ++ "#id") ["a.png", "b.png", "c.png"]
        [2, 0, 1]
      = [some "a.png#id", some "b.png#id", some "c.png#id"] :=
  (C6_parallel_upload_order (fun p => p ++ "#id") ["a.png", "b.png", "c.png"]
    [2, 0, 1]
    (by
      intro i hi
      simp only [List.length_cons, List.length_nil] at hi
      interval_cases i <;> simp)).1

/-- **C9**: after one non-terminal poll and then `"completed"` with both
URLs set, the GoogleSearch client downloads exactly two files — the
video to the output path and the captions to the `.srt` sibling — and
stops after the second status call; with no caption URL only the video
is downloaded. -/
theorem C9_completed_scenario (out v c : String) (e : Option String)
    (s1 : PollStep) (h1 : s1.terminal = false) (rest : List PollStep) :
    gs_download_video out
        (s1 :: PollStep.ok (some "completed") (some v) (some c) e :: rest)
      = { polls := 2,
          downloads := [(v, out), (c, pyReplace out ".mp4" ".srt")],
          result := some (Except.ok ()) } ∧
    gs_download_video out
        (s1 :: PollStep.ok (some "completed") (some v) none e :: rest)
      = { polls := 2, downloads := [(v, out)],
          result := some (Except.ok ()) } := by
  cases s1 with
  | transportError => constructor <;> simp [gs_download_video]
  | ok st vu cu er =>
    simp only [PollStep.terminal, Bool.or_eq_false_iff,
      decide_eq_false_iff_not] at h1
    constructor <;> simp [gs_download_video, h1.1, h1.2]

/-- Witness for C9: `"processing"` then `"completed"` with both URLs. -/
theorem C9_witness :
    PollStep.terminal (PollStep.ok (some "processing") none none none)
        = false ∧
    gs_download_video "final.mp4"
        [PollStep.ok (some "processing") none none none,
         PollStep.ok (some "completed") (some "v-url") (some "c-url") none]
      = { polls := 2,
          downloads := [("v-url", "final.mp4"), ("c-url", "final.srt")],
          result := some (Except.ok ()) } :=
  ⟨rfl,
    (C9_completed_scenario "final.mp4" "v-url" "c-url" none
      (PollStep.ok (some "processing") none none none) rfl []).1⟩

end HeyGen
